import Mathlib

/-!
Verification of the batch stage-file downloader
(`downloader_app/download_files.py`).

The development shallowly embeds the pure logic of the program:

* the filename / file-type derivations of `get_stage_files`,
* the single-file transfer `download_file_from_stage` (its `try/except`
  structure made explicit through an oracle of effect outcomes),
* the sequential download loop of `main` with its per-file
  success/failure accounting and progress reporting,
* the destination-directory validation of `main` that precedes any
  transfer.

External effects (the warehouse session, the filesystem) are modelled as
explicit inputs: each effectful primitive's outcome is an `Except` value
or a boolean filesystem predicate supplied in an environment record.
-/

namespace DownloaderApp

/-- Embedding of Python `str.split(sep)` for a single-character
separator, working on the character list of the string: splitting at
every occurrence of `c`, keeping empty pieces, and returning `[[]]` for
the empty string (Python: `"".split(".") == [""]`). -/
def pySplit (c : Char) : List Char → List (List Char)
  | [] => [[]]
  | x :: xs =>
    if x = c then [] :: pySplit c xs
    else (x :: (pySplit c xs).headI) :: (pySplit c xs).tail

/-- The substring of `s` strictly after the last occurrence of `c`
(the whole of `s` when `c` does not occur).  This definition follows the
spec's words "the substring after the final separator" and is the
spec-side counterpart used to characterise the code's
split-and-take-last derivation. -/
def suffixAfterLast (c : Char) : List Char → List Char
  | [] => []
  | x :: xs =>
    if c ∈ xs then suffixAfterLast c xs
    else if x = c then xs
    else x :: xs

theorem suffixAfterLast_of_not_mem {c : Char} {s : List Char} (h : c ∉ s) :
    suffixAfterLast c s = s := by
  cases s with
  | nil => rfl
  | cons x xs =>
    have hx : ¬ x = c := fun e => h (e ▸ List.mem_cons_self x xs)
    have hxs : c ∉ xs := fun m => h (List.mem_cons_of_mem x m)
    simp [suffixAfterLast, hx, hxs]

theorem pySplit_ne_nil (c : Char) (s : List Char) : pySplit c s ≠ [] := by
  cases s with
  | nil => simp [pySplit]
  | cons x xs =>
    by_cases hx : x = c <;> simp [pySplit, hx]

theorem pySplit_of_not_mem {c : Char} {s : List Char} (h : c ∉ s) :
    pySplit c s = [s] := by
  induction s with
  | nil => rfl
  | cons x xs ih =>
    have hx : ¬ x = c := fun e => h (e ▸ List.mem_cons_self x xs)
    have hxs : c ∉ xs := fun m => h (List.mem_cons_of_mem x m)
    simp [pySplit, hx, ih hxs]

theorem pySplit_two_of_mem {c : Char} {s : List Char} (h : c ∈ s) :
    ∃ a b l, pySplit c s = a :: b :: l := by
  induction s with
  | nil => cases h
  | cons x xs ih =>
    by_cases hx : x = c
    · obtain ⟨a, l, hl⟩ := List.exists_cons_of_ne_nil (pySplit_ne_nil c xs)
      exact ⟨[], a, l, by simp [pySplit, hx, hl]⟩
    · have hxs : c ∈ xs := by
        rcases List.mem_cons.mp h with h1 | h1
        · exact absurd h1.symm hx
        · exact h1
      obtain ⟨a, b, l, hl⟩ := ih hxs
      exact ⟨x :: a, b, l, by simp [pySplit, hx, hl]⟩

/-- The last group produced by the Python split is exactly the suffix of
the string after the last occurrence of the separator. -/
theorem pySplit_getLast? (c : Char) (s : List Char) :
    (pySplit c s).getLast? = some (suffixAfterLast c s) := by
  induction s with
  | nil => rfl
  | cons x xs ih =>
    by_cases hx : x = c
    · obtain ⟨a, l, hl⟩ := List.exists_cons_of_ne_nil (pySplit_ne_nil c xs)
      by_cases hm : c ∈ xs
      · have : ([] :: pySplit c xs).getLast? = (pySplit c xs).getLast? := by
          rw [hl]; exact List.getLast?_cons_cons
        simp only [pySplit, if_pos hx, this, ih, suffixAfterLast, if_pos hm]
      · rw [pySplit_of_not_mem hm] at hl
        have ha : a = xs := by injection hl with h1 h2; exact h1.symm
        have hln : l = [] := by injection hl with h1 h2; exact h2.symm
        subst ha; subst hln
        simp [pySplit, hx, pySplit_of_not_mem hm, suffixAfterLast, hm]
    · by_cases hm : c ∈ xs
      · obtain ⟨a, b, l, hl⟩ := pySplit_two_of_mem hm
        have step1 : pySplit c (x :: xs) = (x :: a) :: b :: l := by
          simp [pySplit, hx, hl]
        rw [step1, List.getLast?_cons_cons, ← List.getLast?_cons_cons (a := a), ← hl, ih]
        simp [suffixAfterLast, hm, hx]
      · rw [show pySplit c (x :: xs) = [x :: xs] by
              simp [pySplit, hx, pySplit_of_not_mem hm]]
        simp [suffixAfterLast, hm, hx]

/-- Derivation of the displayed file name from a stage path, from
`get_stage_files`: Python
`file_path.split('/')[-1] if '/' in file_path else file_path`. -/
def file_name_of_path (file_path : List Char) : List Char :=
  if '/' ∈ file_path then (pySplit '/' file_path).getLastD [] else file_path

/-- Derivation of the displayed file type from a file name, from
`get_stage_files`: Python
`file_name.split('.')[-1].lower() if '.' in file_name else 'unknown'`.
`str.lower` is modelled character-wise by `Char.toLower`. -/
def file_type_of_name (file_name : List Char) : List Char :=
  if '.' ∈ file_name then ((pySplit '.' file_name).getLastD []).map Char.toLower
  else ("unknown").toList

theorem pySplit_getLastD (c : Char) (s : List Char) :
    (pySplit c s).getLastD [] = suffixAfterLast c s := by
  rw [List.getLastD_eq_getLast?, pySplit_getLast?, Option.getD_some]

/-- C6: for every stage path returned by the listing query, the derived
name is the substring after the final path separator, or the whole path
when no separator is present; in particular the path prefix1/test2.csv
yields test2.csv, and so does the bare path test2.csv. -/
theorem file_name_derivation :
    (∀ p : List Char, file_name_of_path p =
       if '/' ∈ p then suffixAfterLast '/' p else p) ∧
    (file_name_of_path (("prefix1/test2.csv").toList)).asString = "test2.csv" ∧
    (file_name_of_path (("test2.csv").toList)).asString = "test2.csv" := by
  refine ⟨fun p => ?_, by decide, by decide⟩
  by_cases h : '/' ∈ p
  · rw [file_name_of_path, if_pos h, pySplit_getLastD, if_pos h]
  · simp [file_name_of_path, h]

/-- C5: for every listed file, the derived type is the lowercase
substring of the name after the last dot, or the string unknown when
the name contains no dot; in particular report.CSV yields csv and
README yields unknown. -/
theorem file_type_derivation :
    (∀ n : List Char, file_type_of_name n =
       if '.' ∈ n then (suffixAfterLast '.' n).map Char.toLower
       else ("unknown").toList) ∧
    (file_type_of_name (("report.CSV").toList)).asString = "csv" ∧
    (file_type_of_name (("README").toList)).asString = "unknown" := by
  refine ⟨fun n => ?_, by decide, by decide⟩
  by_cases h : '.' ∈ n
  · rw [file_type_of_name, if_pos h, pySplit_getLastD, if_pos h]
  · simp [file_type_of_name, h]

/-- Embedding of `os.path.join(a, b)` for POSIX paths with two
components, as used to build `local_file_path`. -/
def pyJoin (a b : String) : String :=
  if b.startsWith ("/") then b
  else if a = "" then b
  else if a.endsWith ("/") then a ++ b
  else a ++ "/" ++ b

/-- Oracle for the effects performed during one call of
`download_file_from_stage`: the outcome of `os.makedirs(local_directory,
exist_ok=True)`, the outcome of `session.file.get(...)` (completion or
exception only — no verifiable return), and the state of
`os.path.exists` on the local filesystem after the get call. -/
structure DlEnv where
  makedirsResult : Except String Unit
  fetchResult : Except String Unit
  fsExists : String → Bool

/-- The body of the `try` block of `download_file_from_stage`, with
exceptions propagating: ensure the local directory exists, fetch the
stage file `@{file_path}` into the directory, then report whether the
expected local file `os.path.join(local_directory, file_name)` now
exists. -/
def download_body (stage_name file_path local_directory file_name : String)
    (env : DlEnv) : Except String Bool :=
  match env.makedirsResult with
  | Except.error e => Except.error e
  | Except.ok _ =>
    match env.fetchResult with
    | Except.error e => Except.error e
    | Except.ok _ =>
      Except.ok (env.fsExists (pyJoin local_directory file_name))

/-- `download_file_from_stage`: the body wrapped in the source's
`except Exception: return False` handler — any exception raised inside
the `try` block is converted into the boolean result `False`. -/
def download_file_from_stage (stage_name file_path local_directory file_name : String)
    (env : DlEnv) : Bool :=
  match download_body stage_name file_path local_directory file_name env with
  | Except.ok b => b
  | Except.error _ => false

/-- The trace of arguments passed to the fetch primitive
`session.file.get` during one call of `download_file_from_stage`: the
get call happens exactly when `os.makedirs` did not raise, and receives
the stage path `"@" ++ file_path`. -/
def download_fetch_calls (stage_name file_path local_directory file_name : String)
    (env : DlEnv) : List String :=
  match env.makedirsResult with
  | Except.error _ => []
  | Except.ok _ => ["@" ++ file_path]

/-- C4: after the fetch primitive returns without error, the transfer
still counts as failed when no file exists at the expected local path
`os.path.join(local_directory, file_name)`. -/
theorem missing_file_counts_as_failure
    (stage_name file_path local_directory file_name : String) (env : DlEnv)
    (hmk : env.makedirsResult = Except.ok ())
    (hget : env.fetchResult = Except.ok ())
    (hex : env.fsExists (pyJoin local_directory file_name) = false) :
    download_file_from_stage stage_name file_path local_directory file_name env = false := by
  simp [download_file_from_stage, download_body, hmk, hget, hex]

theorem missing_file_counts_as_failure_witness :
    download_file_from_stage ("mystage") ("mystage/a.csv") ("/tmp/dl") ("a.csv")
      ⟨Except.ok (), Except.ok (), fun _ => false⟩ = false :=
  missing_file_counts_as_failure ("mystage") ("mystage/a.csv") ("/tmp/dl") ("a.csv")
    ⟨Except.ok (), Except.ok (), fun _ => false⟩ rfl rfl rfl

/-- C9: the result of `download_file_from_stage`, and the trace of fetch
calls it makes, do not depend on the `stage_name` argument — the stage
path passed to the fetch primitive is built from `file_path` alone. -/
theorem download_independent_of_stage_name
    (s₁ s₂ file_path local_directory file_name : String) (env : DlEnv) :
    download_file_from_stage s₁ file_path local_directory file_name env =
      download_file_from_stage s₂ file_path local_directory file_name env ∧
    download_fetch_calls s₁ file_path local_directory file_name env =
      download_fetch_calls s₂ file_path local_directory file_name env :=
  ⟨rfl, rfl⟩

/-- C10: `download_file_from_stage` is total at its public interface —
it always returns a boolean, and whenever the body of its `try` block
raises, the exception is caught and converted into the result `false`
rather than propagated. -/
theorem download_total_never_raises
    (stage_name file_path local_directory file_name : String) (env : DlEnv) :
    (download_file_from_stage stage_name file_path local_directory file_name env = true ∨
     download_file_from_stage stage_name file_path local_directory file_name env = false) ∧
    (∀ e, download_body stage_name file_path local_directory file_name env =
            Except.error e →
          download_file_from_stage stage_name file_path local_directory file_name env = false) := by
  constructor
  · cases h : download_file_from_stage stage_name file_path local_directory file_name env
    · exact Or.inr rfl
    · exact Or.inl rfl
  · intro e he
    simp [download_file_from_stage, he]

theorem download_total_never_raises_witness :
    download_file_from_stage ("mystage") ("mystage/a.csv") ("/tmp/dl") ("a.csv")
      ⟨Except.error ("disk full"), Except.ok (), fun _ => false⟩ = false :=
  (download_total_never_raises ("mystage") ("mystage/a.csv") ("/tmp/dl") ("a.csv")
      ⟨Except.error ("disk full"), Except.ok (), fun _ => false⟩).2 ("disk full") rfl

/-- One row of the user's selection (`selected_files`): the columns read
by the download loop, plus the oracle of effect outcomes for this file's
transfer attempt. -/
structure SelectedFile where
  file_path : String
  file_name : String
  env : DlEnv

/-- The aggregates and event traces produced by the download loop of
`main`: `total` is `total_files`, `success_count` and the two name lists
are the per-file accounting, `processed` is the sequence of file names
shown as the current status (one per file, in processing order),
`progress` is the sequence of values passed to the progress bar, and
`fetchCalls` is the trace of stage paths passed to the fetch
primitive. -/
structure BatchResult where
  total : Nat
  success_count : Nat
  downloaded_files : List String
  failed_files : List String
  processed : List String
  progress : List ℚ
  fetchCalls : List String
deriving DecidableEq

/-- Whether this file's transfer attempt succeeds, as decided by
`download_file_from_stage` inside the loop of `main`. -/
def fileOk (stage_name download_folder : String) (f : SelectedFile) : Bool :=
  download_file_from_stage stage_name f.file_path download_folder f.file_name f.env

/-- The download loop of `main`: for each selected file in order, show
its name, attempt the transfer, record it as downloaded or failed, and
report the progress fraction `(idx + 1) / total_files`.  The imperative
accumulation (appends at the end of each list) is rendered as structural
recursion building every list from the front. -/
def downloadLoop (stage_name download_folder : String) (total_files : Nat) :
    List SelectedFile → Nat → BatchResult
  | [], _ => ⟨total_files, 0, [], [], [], [], []⟩
  | f :: rest, idx =>
    let ok := download_file_from_stage stage_name f.file_path download_folder f.file_name f.env
    let calls := download_fetch_calls stage_name f.file_path download_folder f.file_name f.env
    let r := downloadLoop stage_name download_folder total_files rest (idx + 1)
    { total := total_files
      success_count := (if ok then 1 else 0) + r.success_count
      downloaded_files := (if ok then [f.file_name] else []) ++ r.downloaded_files
      failed_files := (if ok then [] else [f.file_name]) ++ r.failed_files
      processed := f.file_name :: r.processed
      progress := (((idx + 1 : Nat) : ℚ) / ((total_files : Nat) : ℚ)) :: r.progress
      fetchCalls := calls ++ r.fetchCalls }

/-- The batch download of `main`: run the loop over the whole selection
with `total_files = len(selected_files)` and indices from `0`. -/
def runBatch (stage_name download_folder : String)
    (selected_files : List SelectedFile) : BatchResult :=
  downloadLoop stage_name download_folder selected_files.length selected_files 0

theorem downloadLoop_total (s d : String) (t : Nat) :
    ∀ (files : List SelectedFile) (idx : Nat),
      (downloadLoop s d t files idx).total = t := by
  intro files
  induction files with
  | nil => intro idx; rfl
  | cons f rest ih => intro idx; simp [downloadLoop, ih]

theorem downloadLoop_processed (s d : String) (t : Nat) :
    ∀ (files : List SelectedFile) (idx : Nat),
      (downloadLoop s d t files idx).processed = files.map (fun f => f.file_name) := by
  intro files
  induction files with
  | nil => intro idx; rfl
  | cons f rest ih => intro idx; simp [downloadLoop, ih]

theorem downloadLoop_downloaded (s d : String) (t : Nat) :
    ∀ (files : List SelectedFile) (idx : Nat),
      (downloadLoop s d t files idx).downloaded_files =
        (files.filter (fileOk s d)).map (fun f => f.file_name) := by
  intro files
  induction files with
  | nil => intro idx; rfl
  | cons f rest ih =>
    intro idx
    by_cases h : download_file_from_stage s f.file_path d f.file_name f.env <;>
      simp [downloadLoop, ih, List.filter_cons, fileOk, h]

theorem downloadLoop_failed (s d : String) (t : Nat) :
    ∀ (files : List SelectedFile) (idx : Nat),
      (downloadLoop s d t files idx).failed_files =
        (files.filter (fun f => ! fileOk s d f)).map (fun f => f.file_name) := by
  intro files
  induction files with
  | nil => intro idx; rfl
  | cons f rest ih =>
    intro idx
    by_cases h : download_file_from_stage s f.file_path d f.file_name f.env <;>
      simp [downloadLoop, ih, List.filter_cons, fileOk, h]

theorem downloadLoop_success (s d : String) (t : Nat) :
    ∀ (files : List SelectedFile) (idx : Nat),
      (downloadLoop s d t files idx).success_count =
        (files.filter (fileOk s d)).length := by
  intro files
  induction files with
  | nil => intro idx; rfl
  | cons f rest ih =>
    intro idx
    by_cases h : download_file_from_stage s f.file_path d f.file_name f.env <;>
      simp [downloadLoop, ih, List.filter_cons, fileOk, h, Nat.add_comm]

theorem downloadLoop_progress (s d : String) (t : Nat) :
    ∀ (files : List SelectedFile) (idx : Nat),
      (downloadLoop s d t files idx).progress =
        (List.range files.length).map
          (fun i => (((idx + i + 1 : Nat) : ℚ) / ((t : Nat) : ℚ))) := by
  intro files
  induction files with
  | nil => intro idx; rfl
  | cons f rest ih =>
    intro idx
    simp only [downloadLoop, ih, List.length_cons, List.range_succ_eq_map,
      List.map_cons, List.map_map, Nat.add_zero]
    congr 1
    apply List.map_congr_left
    intro i _
    simp only [Function.comp_apply]
    exact congrArg (fun n : Nat => (((n : Nat) : ℚ) / ((t : Nat) : ℚ))) (by omega)

/-- C1: for every non-empty selection, the batch reports
`total = n`, the succeeded and failed counts sum to `total`, and the
succeeded and failed name lists together are a permutation of the
selected names — every selected file is counted exactly once and none is
skipped silently. -/
theorem runBatch_total_and_counts (stage_name download_folder : String)
    (selected_files : List SelectedFile) (hne : selected_files ≠ []) :
    (runBatch stage_name download_folder selected_files).total = selected_files.length ∧
    (runBatch stage_name download_folder selected_files).success_count +
      (runBatch stage_name download_folder selected_files).failed_files.length =
      (runBatch stage_name download_folder selected_files).total ∧
    ((runBatch stage_name download_folder selected_files).downloaded_files ++
      (runBatch stage_name download_folder selected_files).failed_files).Perm
      (selected_files.map (fun f => f.file_name)) := by
  have hperm :
      ((selected_files.filter (fileOk stage_name download_folder)).map (fun f => f.file_name) ++
        (selected_files.filter (fun f => ! fileOk stage_name download_folder f)).map
          (fun f => f.file_name)).Perm
        (selected_files.map (fun f => f.file_name)) := by
    rw [← List.map_append]
    exact (List.filter_append_perm _ selected_files).map (fun f => f.file_name)
  refine ⟨downloadLoop_total _ _ _ _ _, ?_, ?_⟩
  · rw [runBatch, downloadLoop_total, downloadLoop_success, downloadLoop_failed]
    rw [List.length_map]
    have := hperm.length_eq
    simp only [List.length_append, List.length_map] at this
    simpa using this
  · rw [runBatch, downloadLoop_downloaded, downloadLoop_failed]
    exact hperm

theorem runBatch_total_and_counts_witness :
    ([⟨("stg/a.csv"), ("a.csv"), ⟨Except.ok (), Except.ok (), fun _ => true⟩⟩] :
        List SelectedFile) ≠ [] ∧
    (runBatch ("stg") ("/tmp/dl")
        [⟨("stg/a.csv"), ("a.csv"), ⟨Except.ok (), Except.ok (), fun _ => true⟩⟩]).total = 1 := by
  have h := runBatch_total_and_counts ("stg") ("/tmp/dl")
    [⟨("stg/a.csv"), ("a.csv"), ⟨Except.ok (), Except.ok (), fun _ => true⟩⟩]
    (by simp)
  exact ⟨by simp, h.1⟩

/-- C2: one file's failure does not stop the remaining transfers — every
selected file is processed — and for a selection of three files whose
fetch primitive fails exactly on the second, the outcome is
`total = 3`, `succeeded = 2`, `failed = 1`, the second name alone in the
failed list, and the first and third names in the succeeded list in that
order. -/
theorem partial_failure_isolation :
    (∀ (stage_name download_folder : String) (selected_files : List SelectedFile),
        (runBatch stage_name download_folder selected_files).processed =
          selected_files.map (fun f => f.file_name)) ∧
    (runBatch ("stg") ("/tmp/dl")
        [⟨("stg/f1.csv"), ("f1.csv"), ⟨Except.ok (), Except.ok (), fun _ => true⟩⟩,
         ⟨("stg/f2.csv"), ("f2.csv"),
            ⟨Except.ok (), Except.error ("network error"), fun _ => false⟩⟩,
         ⟨("stg/f3.csv"), ("f3.csv"), ⟨Except.ok (), Except.ok (), fun _ => true⟩⟩]).total = 3 ∧
    (runBatch ("stg") ("/tmp/dl")
        [⟨("stg/f1.csv"), ("f1.csv"), ⟨Except.ok (), Except.ok (), fun _ => true⟩⟩,
         ⟨("stg/f2.csv"), ("f2.csv"),
            ⟨Except.ok (), Except.error ("network error"), fun _ => false⟩⟩,
         ⟨("stg/f3.csv"), ("f3.csv"), ⟨Except.ok (), Except.ok (), fun _ => true⟩⟩]).success_count
      = 2 ∧
    (runBatch ("stg") ("/tmp/dl")
        [⟨("stg/f1.csv"), ("f1.csv"), ⟨Except.ok (), Except.ok (), fun _ => true⟩⟩,
         ⟨("stg/f2.csv"), ("f2.csv"),
            ⟨Except.ok (), Except.error ("network error"), fun _ => false⟩⟩,
         ⟨("stg/f3.csv"), ("f3.csv"), ⟨Except.ok (), Except.ok (), fun _ => true⟩⟩]).failed_files
      = [("f2.csv")] ∧
    (runBatch ("stg") ("/tmp/dl")
        [⟨("stg/f1.csv"), ("f1.csv"), ⟨Except.ok (), Except.ok (), fun _ => true⟩⟩,
         ⟨("stg/f2.csv"), ("f2.csv"),
            ⟨Except.ok (), Except.error ("network error"), fun _ => false⟩⟩,
         ⟨("stg/f3.csv"), ("f3.csv"),
            ⟨Except.ok (), Except.ok (), fun _ => true⟩⟩]).downloaded_files
      = [("f1.csv"), ("f3.csv")] := by
  refine ⟨fun s d files => ?_, by decide, by decide, by decide, by decide⟩
  exact downloadLoop_processed s d files.length files 0

/-- C7: files are processed strictly in selection order, and the
sequence of emitted progress fractions over a batch of `n` files is
exactly `1/n, 2/n, ..., n/n`. -/
theorem processing_order_and_progress (stage_name download_folder : String)
    (selected_files : List SelectedFile) :
    (runBatch stage_name download_folder selected_files).processed =
      selected_files.map (fun f => f.file_name) ∧
    (runBatch stage_name download_folder selected_files).progress =
      (List.range selected_files.length).map
        (fun i => (((i + 1 : Nat) : ℚ) / ((selected_files.length : Nat) : ℚ))) := by
  constructor
  · exact downloadLoop_processed _ _ _ _ _
  · rw [runBatch, downloadLoop_progress]
    apply List.map_congr_left
    intro i _
    norm_num

/-- The result of the download section of `main`: either the fatal
destination error raised while validating the download folder, or the
outcome of the batch. -/
inductive MainDownloadResult where
  | destinationUnavailable (e : String)
  | outcome (r : BatchResult)
deriving DecidableEq

/-- The download flow of `main`: first validate the destination
directory with `os.makedirs(download_folder, exist_ok=True)`; on any
exception report the invalid folder and return without downloading
anything (an empty fetch-call trace); otherwise run the batch.  The
second component is the trace of calls made to the fetch primitive. -/
def mainDownloadFlow (stage_name download_folder : String)
    (mkdirResult : Except String Unit) (selected_files : List SelectedFile) :
    MainDownloadResult × List String :=
  match mkdirResult with
  | Except.error e => (MainDownloadResult.destinationUnavailable e, [])
  | Except.ok _ =>
    let r := runBatch stage_name download_folder selected_files
    (MainDownloadResult.outcome r, r.fetchCalls)

/-- C3: when creation of the destination directory fails, the flow
short-circuits — the result is the fatal destination error, not a batch
outcome, and no call to the fetch primitive occurs for any selected
file. -/
theorem destination_failure_short_circuits
    (stage_name download_folder e : String) (selected_files : List SelectedFile) :
    mainDownloadFlow stage_name download_folder (Except.error e) selected_files =
      (MainDownloadResult.destinationUnavailable e, ([] : List String)) ∧
    ∀ r : BatchResult,
      (mainDownloadFlow stage_name download_folder (Except.error e) selected_files).1 ≠
        MainDownloadResult.outcome r := by
  refine ⟨rfl, fun r h => ?_⟩
  simp [mainDownloadFlow] at h

/-- Groups of at most three elements, taken from the front. -/
def chunk3 : List Char → List (List Char)
  | [] => []
  | [a] => [[a]]
  | [a, b] => [[a, b]]
  | a :: b :: d :: rest => [a, b, d] :: chunk3 rest

/-- Embedding of Python's thousands-separator formatting of a
non-negative integer, as in the f-string directive used for the file
size: digits grouped in threes from the right, joined by commas. -/
def pyThousands (n : Nat) : String :=
  String.intercalate (",")
    (((chunk3 (toString n).toList.reverse).map (fun g => g.reverse)).reverse.map
      List.asString)

/-- One raw row of the `LIST @stage` query result: the full stage path,
the size in bytes, and the last-modified timestamp. -/
structure ListRow where
  name : String
  size : Nat
  last_modified : String
deriving DecidableEq

/-- One entry of the dataframe built by `get_stage_files`. -/
structure StageFileRecord where
  file_name : String
  file_size : String
  file_type : String
  last_modified : String
  file_path : String
deriving DecidableEq

/-- Construction of one dataframe entry from one raw listing row, as in
the loop body of `get_stage_files`. -/
def mkStageFileRecord (row : ListRow) : StageFileRecord :=
  let file_name := (file_name_of_path row.name.toList).asString
  { file_name := file_name
    file_size := pyThousands row.size ++ " bytes"
    file_type := (file_type_of_name file_name.toList).asString
    last_modified := row.last_modified
    file_path := row.name }

/-- `get_stage_files`: the outcome of the `LIST @stage_name` query is
supplied as an `Except` value.  On success the rows are mapped to
dataframe entries (an empty row list gives an empty dataframe); on any
exception the handler renders an error message and returns an empty
dataframe.  The first component is the dataframe handed back to the
caller; the second is the error message rendered on the UI, if any. -/
def get_stage_files (stage_name : String)
    (queryResult : Except String (List ListRow)) :
    List StageFileRecord × Option String :=
  match queryResult with
  | Except.ok rows => (rows.map mkStageFileRecord, none)
  | Except.error e =>
    ([], some ("Error fetching files from stage " ++ stage_name ++ ": " ++ e))

/-- The file-browser gate of `main`: with an empty dataframe
(`files_df.empty`) the caller reports that no files were found and
returns without offering a download; only a non-empty dataframe lets the
flow proceed. -/
def fileBrowserProceeds (files_df : List StageFileRecord) : Bool :=
  ! files_df.isEmpty

/-- C8 counterexample: on query failure `get_stage_files` does not fail
with a distinguishable error — the listing it returns to the caller is
exactly the empty-stage listing. -/
theorem query_failure_result_counterexample :
    (get_stage_files ("mystage") (Except.error ("permission denied"))).1 =
      (get_stage_files ("mystage") (Except.ok [])).1 := rfl

/-- C8 as amended: a stage with zero files yields an empty listing and
no error; on query failure `get_stage_files` does not raise — it renders
an error message itself and returns an empty listing identical to the
empty-stage result, and the caller, seeing an empty listing, does not
proceed. -/
theorem query_failure_returns_empty_listing :
    (∀ s : String, get_stage_files s (Except.ok []) = ([], none)) ∧
    (∀ s e : String,
        get_stage_files s (Except.error e) =
          ([], some ("Error fetching files from stage " ++ s ++ ": " ++ e))) ∧
    fileBrowserProceeds [] = false := by
  exact ⟨fun s => rfl, fun s e => rfl, rfl⟩

end DownloaderApp
